import Mathlib

/-!
Verification of the FHIR client (`FhirClient.py`) against its natural-language
specification. The Python source is shallowly embedded: decoded JSON documents
become a `Json` inductive, the polling loop becomes a recursive function over a
finite prefix of the response stream that also records the sleeps it performs,
and request-shaping methods become pure functions from client state and
arguments to a request description. Fallible construction (Python raising)
is modelled with `Except`.
-/

namespace FhirClientModel

/-- Decoded JSON value, standing in for the opaque dict/list trees the client
passes around (`response.json()` results, request bodies built as dict
literals). Object fields keep source order, as Python dicts do. -/
inductive Json where
  | null
  | bool (b : Bool)
  | num (n : Int)
  | str (s : String)
  | arr (elems : List Json)
  | obj (fields : List (String × Json))

/-- Field access on a JSON object by key: first field with the given key,
`none` when `j` is not an object or the key is absent. -/
def Json.lookup : Json → String → Option Json
  | .obj fields, k => List.lookup k fields
  | _, _ => none

/-- The requests library flag `Response.ok`: true exactly when the status code is below 400
(4xx and 5xx make `raise_for_status` raise). -/
def respOk (status : Nat) : Bool := status < 400

/-- A `Retry-After` header value, already lexed the way `poll` inspects it
(src lines 452-461): either a numeric string (`retry_after.isnumeric()`), or
an HTTP-date in GMT that `strptime` parses to the given epoch second. -/
inductive RetryAfterValue where
  | numeric (n : Nat)
  | httpDate (epochSeconds : Int)
deriving Repr, DecidableEq

/-- One response observed by an iteration of the poll loop. `now` is the
epoch second `datetime.now(timezone.utc)` returns in that iteration. -/
structure PollResponse where
  status : Nat
  retryAfter : Option RetryAfterValue
  body : Json
  now : Int

/-- The Python value `timedelta.seconds` for `target - now` in whole seconds:
a timedelta is normalised to `(days, seconds, microseconds)` with
`0 ≤ seconds < 86400`, so `.seconds` is the floor-mod of the total by 86400
(src line 461). Note this is NOT `max 0 (target - now)`. -/
def timedeltaSeconds (target now : Int) : Nat := ((target - now).emod 86400).toNat

/-- The wait interval `poll` computes from a `Retry-After` header
(src lines 454-461): numeric values are taken as seconds, HTTP-dates go
through the `timedelta.seconds` computation above. -/
def retryAfterSeconds (ra : RetryAfterValue) (now : Int) : Nat :=
  match ra with
  | .numeric n => n
  | .httpDate t => timedeltaSeconds t now

/-- Terminal outcome of the poll loop. `pending` marks that the modelled
finite response stream ran out while the (in Python, unbounded) loop was
still running. -/
inductive PollResult where
  | manifest (body : Json)
  | httpError (status : Nat)
  | invalid
  | pending

/-- `FhirClient.poll` (src lines 434-467) over a finite prefix of the response
stream. `errorCount` and `seconds` thread the Python locals of the same names;
the returned list holds the durations passed to `time.sleep`, in order. The
branch structure mirrors the source: non-ok first (absorb while
`error_count < 3`, resetting the interval to the default, else
`raise_for_status`), then `200` returns the body, then a present `Retry-After`
recomputes the interval, then a non-202 status raises, and a bare `202`
keeps the previous interval; every continuing iteration sleeps
`min seconds default_polling_time`. -/
def pollLoop (defaultPollingTime : Nat) :
    List PollResponse → Nat → Nat → PollResult × List Nat
  | [], _, _ => (.pending, [])
  | r :: rest, errorCount, seconds =>
    if respOk r.status = false then
      if errorCount < 3 then
        let s := min defaultPollingTime defaultPollingTime
        let next := pollLoop defaultPollingTime rest (errorCount + 1) s
        (next.1, s :: next.2)
      else
        (.httpError r.status, [])
    else if r.status = 200 then
      (.manifest r.body, [])
    else
      match r.retryAfter with
      | some ra =>
        let s := min (retryAfterSeconds ra r.now) defaultPollingTime
        let next := pollLoop defaultPollingTime rest errorCount s
        (next.1, s :: next.2)
      | none =>
        if r.status ≠ 202 then
          (.invalid, [])
        else
          let s := min seconds defaultPollingTime
          let next := pollLoop defaultPollingTime rest errorCount s
          (next.1, s :: next.2)

/-- `poll(poll_url, default_polling_time)`: the loop starts with
`error_count = 0` and `seconds = default_polling_time` (src lines 435-436). -/
def poll (defaultPollingTime : Nat) (responses : List PollResponse) :
    PollResult × List Nat :=
  pollLoop defaultPollingTime responses 0 defaultPollingTime

/-- The kick-off response as the bulk-export methods see it: status code,
optional `Content-Location` header, decoded JSON body. -/
structure KickoffResponse where
  status : Nat
  contentLocation : Option String
  body : Json

/-- What a bulk kick-off does with its response. -/
inductive KickoffOutcome where
  | startPoll (jobHandle : String)
  | direct (body : Json)
  | httpError (status : Nat)
  | keyError

/-- The shared kick-off logic of `bulk_patient_export`, `bulk_group_export`
and `bulk_patient_match` (src lines 122-137 and 376-380 / 399-403 / 428-432):
`__async_operation` calls `raise_for_status()` on any non-ok response, so such
a response never reaches the caller; on an ok response, exactly status 202
extracts the Content-Location entry of `response.headers` (a missing header raises
KeyError) and starts polling; any other ok status returns `response.json()`
directly. -/
def bulkKickoff (r : KickoffResponse) : KickoffOutcome :=
  if respOk r.status = false then
    .httpError r.status
  else if r.status = 202 then
    match r.contentLocation with
    | some loc => .startPoll loc
    | none => .keyError
  else
    .direct r.body

/-- The `Parameters` body built by `mutate_group` (src lines 247-259),
mirroring the Python dict literal; `ts` is `str(time.time_ns())`. -/
def mutate_group_body (patient_id : String) (ts : String) : Json :=
  .obj [("resourceType", .str "Parameters"),
        ("id", .str ts),
        ("parameter", .arr [
          .obj [("name", .str "patientReference"),
                ("valueReference", .obj [
                  ("reference", .str patient_id),
                  ("type", .str "Patient")])]])]

/-- The `Parameters` body `validate` tries to build (src lines 283-313).
`mode` and `profile` are optional strings (`None` or a value). The profile
branch in the source is `parameter.append({ {name: ..., valueCode: ...} })`:
the inner braces make a dict and the outer braces a SET containing that dict;
dicts are unhashable, so Python raises TypeError there, before any request is
sent — modelled as `.error`. -/
def validate_body (resource : Json) (mode : Option String) (profile : Option String)
    (ts : String) : Except String Json :=
  let parameter : List Json := [.obj [("name", .str "resource"), ("resource", resource)]]
  let parameter : List Json :=
    match mode with
    | some m => if 0 < m.length then
        parameter ++ [.obj [("name", .str "mode"), ("valueCode", .str m)]]
      else parameter
    | none => parameter
  match profile with
  | some p =>
    if 0 < p.length then
      .error "TypeError: unhashable type (set literal around the profile dict)"
    else
      .ok (.obj [("resourceType", .str "Parameters"), ("id", .str ts),
                 ("parameter", .arr parameter)])
  | none =>
    .ok (.obj [("resourceType", .str "Parameters"), ("id", .str ts),
               ("parameter", .arr parameter)])

/-- A navigation link of a Bundle (an item of the link list of the results dict). -/
structure BundleLink where
  relation : String
  url : String

/-- The input document of `search_next`: `resourceType` and `link` are
`none` when the corresponding key is absent from the dict. -/
structure SearchDoc where
  resourceType : Option String
  link : Option (List BundleLink)

/-- `search_next` (src lines 275-281). `fetch` stands for
`self.__operation(url=...)`, i.e. a GET returning decoded JSON. The source
collects the urls of links whose relation is `next` and follows
`next_urls[0]` exactly when `len(next_urls) == 1`; every other shape returns
`None`. -/
def search_next (fetch : String → Json) (doc : SearchDoc) : Option Json :=
  match doc.resourceType, doc.link with
  | some rt, some l =>
    if rt = "Bundle" then
      match (l.filter (fun item => item.relation = "next")).map (fun item => item.url) with
      | [u] => some (fetch u)
      | _ => none
    else none
  | _, _ => none

/-- Client state relevant to header construction (`__init__`, src lines
17-27): all of `token`, `auth_type`, `extra_headers` may be `None`. -/
structure ClientState where
  base_url : String
  token : Option String
  token_expires_at : Option Int
  auth_type : Option String
  extra_headers : Option (List (String × String))

/-- Whether `__get_token` (src lines 38-41) invokes the `refresh_token` hook:
exactly when an expiry is set and `datetime.now()` is past it. The default
hook is `lambda: ''` and mutates nothing, which is what we model. -/
def refreshAttempted (st : ClientState) (now : Int) : Bool :=
  match st.token_expires_at with
  | some e => e < now
  | none => false

/-- The header dict `__headers` builds (src lines 43-56): FHIR JSON
`Accept`/`Content-Type`, `Authorization` when both a token and an auth type
are configured, then the configured extra headers merged in (modelled as
appended entries; a later entry shadows an earlier one on lookup-last, as
`dict.update` overwrites). -/
def headersList (st : ClientState) : List (String × String) :=
  let base := [("Accept", "application/fhir+json"),
               ("Content-Type", "application/fhir+json;charset=UTF-8")]
  let withAuth :=
    match st.token, st.auth_type with
    | some t, some a => base ++ [("Authorization", a ++ " " ++ t)]
    | _, _ => base
  match st.extra_headers with
  | some extra => withAuth ++ extra
  | none => withAuth

/-- The headers attached to one outgoing request, together with whether
building them ran the token-refresh check (`__headers` calls `__get_token`). -/
structure BuiltHeaders where
  entries : List (String × String)
  refreshInvoked : Bool

/-- One outgoing HTTP request as the client describes it: target url,
the explicit headers passed to the session call (`none` when the source
passes no `headers=` argument at all), and the JSON body (`none` for GET). -/
structure RequestModel where
  url : String
  headers : Option BuiltHeaders
  body : Option Json

/-- `get_metadata` (src lines 168-175): a bare `session.get` on
`{base}/metadata` with no `headers=` argument — no FHIR content headers, no
`Authorization`, no extra headers, and no token-refresh check. -/
def get_metadata_request (st : ClientState) : RequestModel :=
  { url := st.base_url ++ "/metadata", headers := none, body := none }

/-- `get_smart_configuration` (src lines 177-184): likewise a bare
`session.get` with no `headers=` argument. -/
def get_smart_configuration_request (st : ClientState) : RequestModel :=
  { url := st.base_url ++ "/.well-known/smart-configuration",
    headers := none, body := none }

/-- `__operation_on_resource` (src lines 88-101) through `__operation`
(src lines 64-87): url `{base}/{type}/{id}/{operation}`, headers built by
`__headers` (which runs the token-refresh check), body serialised when
present. -/
def operation_on_resource_request (st : ClientState) (now : Int)
    (resource_type resource_id operation : String) (body : Option Json) :
    RequestModel :=
  { url := st.base_url ++ "/" ++ resource_type ++ "/" ++ resource_id ++ "/" ++ operation,
    headers := some ⟨headersList st, refreshAttempted st now⟩,
    body := body }

/-- `mutate_group` (src lines 243-259): a POST of `mutate_group_body` to
`Group/{group_id}/{operation}`. -/
def mutate_group_request (st : ClientState) (now : Int)
    (group_id patient_id operation : String) (ts : String) : RequestModel :=
  operation_on_resource_request st now "Group" group_id operation
    (some (mutate_group_body patient_id ts))

/-- `member_add` (src lines 240-241) delegates to `mutate_group` with
operation `$member-add`. -/
def member_add_request (st : ClientState) (now : Int)
    (group_id patient_id ts : String) : RequestModel :=
  mutate_group_request st now group_id patient_id "$member-add" ts

/-- `member_remove` (src lines 237-238) delegates to `mutate_group` with
operation `$member-remove`. -/
def member_remove_request (st : ClientState) (now : Int)
    (group_id patient_id ts : String) : RequestModel :=
  mutate_group_request st now group_id patient_id "$member-remove" ts

/-- `create` (src lines 315-316): POST of the resource to `{base}/{type}`,
with the standard headers — shown for contrast with `update`. -/
def create_request (st : ClientState) (now : Int) (resource_type : String)
    (resource : Json) : RequestModel :=
  { url := st.base_url ++ "/" ++ resource_type,
    headers := some ⟨headersList st, refreshAttempted st now⟩,
    body := some resource }

/-- `update` (src lines 318-319): the body is a single `pass` statement, so
the call returns `None`, issues no request and touches no state. -/
def update_call (st : ClientState) (resource_type : String) (resource : Json) :
    ClientState × Option Json × List RequestModel :=
  (st, none, [])

/-! ### Step lemmas for the poll loop -/

/-- A non-ok response with the error budget not yet spent: the counter goes
up, the interval resets to the default, and the loop sleeps the default. -/
theorem pollLoop_error_absorb (d : Nat) (r : PollResponse) (rest : List PollResponse)
    (ec s : Nat) (hok : respOk r.status = false) (hec : ec < 3) :
    pollLoop d (r :: rest) ec s =
      ((pollLoop d rest (ec + 1) d).1, d :: (pollLoop d rest (ec + 1) d).2) := by
  simp [pollLoop, hok, hec, Nat.min_self]

/-- A non-ok response with the error budget spent raises the HTTP error. -/
theorem pollLoop_error_escalate (d : Nat) (r : PollResponse) (rest : List PollResponse)
    (ec s : Nat) (hok : respOk r.status = false) (hec : ¬ ec < 3) :
    pollLoop d (r :: rest) ec s = (.httpError r.status, []) := by
  simp [pollLoop, hok, hec]

/-- A 200 response returns its body at once, with no further sleep. -/
theorem pollLoop_200 (d : Nat) (r : PollResponse) (rest : List PollResponse)
    (ec s : Nat) (h200 : r.status = 200) :
    pollLoop d (r :: rest) ec s = (.manifest r.body, []) := by
  simp [pollLoop, respOk, h200]

/-- An ok, non-200 response carrying `Retry-After` recomputes the interval
from the header and sleeps its clamp by the default. -/
theorem pollLoop_retry (d : Nat) (r : PollResponse) (rest : List PollResponse)
    (ec s : Nat) (ra : RetryAfterValue) (hok : respOk r.status = true)
    (h200 : r.status ≠ 200) (hra : r.retryAfter = some ra) :
    pollLoop d (r :: rest) ec s =
      ((pollLoop d rest ec (min (retryAfterSeconds ra r.now) d)).1,
       min (retryAfterSeconds ra r.now) d ::
         (pollLoop d rest ec (min (retryAfterSeconds ra r.now) d)).2) := by
  simp [pollLoop, hok, h200, hra]

/-- A bare 202 (no `Retry-After`) keeps the previous interval. -/
theorem pollLoop_202 (d : Nat) (r : PollResponse) (rest : List PollResponse)
    (ec s : Nat) (hra : r.retryAfter = none) (h202 : r.status = 202) :
    pollLoop d (r :: rest) ec s =
      ((pollLoop d rest ec (min s d)).1,
       min s d :: (pollLoop d rest ec (min s d)).2) := by
  simp [pollLoop, respOk, hra, h202]

/-- Any other ok response shape raises the invalid-poll-response error. -/
theorem pollLoop_invalid (d : Nat) (r : PollResponse) (rest : List PollResponse)
    (ec s : Nat) (hok : respOk r.status = true) (h200 : r.status ≠ 200)
    (hra : r.retryAfter = none) (h202 : r.status ≠ 202) :
    pollLoop d (r :: rest) ec s = (.invalid, []) := by
  simp [pollLoop, hok, h200, hra, h202]

/-- A block of 202 responses only moves the interval: the outcome is that of
the remaining stream with the same error counter. -/
theorem pollLoop_202_block (d : Nat) (a : List PollResponse) :
    ∀ (rest : List PollResponse) (ec s : Nat), (∀ r ∈ a, r.status = 202) →
      ∃ s2, (pollLoop d (a ++ rest) ec s).1 = (pollLoop d rest ec s2).1 := by
  induction a with
  | nil => exact fun rest ec s _ => ⟨s, rfl⟩
  | cons r a ih =>
    intro rest ec s h
    have hr : r.status = 202 := h r (List.mem_cons_self r a)
    have ha : ∀ x ∈ a, x.status = 202 := fun x hx => h x (List.mem_cons_of_mem r hx)
    have hok : respOk r.status = true := by simp [respOk, hr]
    have h200 : r.status ≠ 200 := by simp [hr]
    cases hra : r.retryAfter with
    | some ra =>
      rw [List.cons_append, pollLoop_retry d r (a ++ rest) ec s ra hok h200 hra]
      exact ih rest ec _ ha
    | none =>
      rw [List.cons_append, pollLoop_202 d r (a ++ rest) ec s hra hr]
      exact ih rest ec _ ha

/-- A block of 202 responses followed by a non-ok response, with budget left:
the counter goes up by one and the interval resets to the default. -/
theorem pollLoop_block_then_error (d : Nat) (a : List PollResponse) (e : PollResponse)
    (rest : List PollResponse) (ec s : Nat)
    (ha : ∀ r ∈ a, r.status = 202) (he : respOk e.status = false) (hec : ec < 3) :
    (pollLoop d (a ++ e :: rest) ec s).1 = (pollLoop d rest (ec + 1) d).1 := by
  obtain ⟨s2, hs2⟩ := pollLoop_202_block d a (e :: rest) ec s ha
  rw [hs2, pollLoop_error_absorb d e rest ec s2 he hec]

/-! ### Claim theorems -/

/-- C1 (counterexample): the claim says errors separated by successful 202
responses are not counted together, so this stream — whose non-ok responses
are all isolated by 202s, never two in a row — should absorb every error.
Instead `poll` raises the HTTP error at the fourth non-ok response: the error
counter is never reset by a successful response. -/
theorem poll_isolated_errors_still_escalate :
    (poll 120 [{ status := 500, retryAfter := none, body := .null, now := 0 },
               { status := 202, retryAfter := some (.numeric 1), body := .null, now := 0 },
               { status := 500, retryAfter := none, body := .null, now := 0 },
               { status := 202, retryAfter := some (.numeric 1), body := .null, now := 0 },
               { status := 500, retryAfter := none, body := .null, now := 0 },
               { status := 202, retryAfter := some (.numeric 1), body := .null, now := 0 },
               { status := 500, retryAfter := none, body := .null, now := 0 }]).1 =
      .httpError 500 ∧
    List.map (fun r => respOk r.status)
      [({ status := 500, retryAfter := none, body := .null, now := 0 } : PollResponse),
       { status := 202, retryAfter := some (.numeric 1), body := .null, now := 0 },
       { status := 500, retryAfter := none, body := .null, now := 0 },
       { status := 202, retryAfter := some (.numeric 1), body := .null, now := 0 },
       { status := 500, retryAfter := none, body := .null, now := 0 },
       { status := 202, retryAfter := some (.numeric 1), body := .null, now := 0 },
       { status := 500, retryAfter := none, body := .null, now := 0 }] =
      [false, true, false, true, false, true, false] :=
  ⟨rfl, rfl⟩

/-- C1 (amended): the error budget of `poll` is cumulative over the whole
sequence, not consecutive. Up to 3 non-ok responses are absorbed in total,
each retried with the default interval; the 4th non-ok response fails with
the HTTP error even when the errors are separated by arbitrary runs of 202
responses; 3 (a fortiori 2) failures followed by a 200 return the manifest,
and when the three failures come first the loop sleeps the default interval
after each of them. -/
theorem poll_error_budget_cumulative (d : Nat)
    (a1 a2 a3 a4 : List PollResponse)
    (h1 : ∀ r ∈ a1, r.status = 202) (h2 : ∀ r ∈ a2, r.status = 202)
    (h3 : ∀ r ∈ a3, r.status = 202) (h4 : ∀ r ∈ a4, r.status = 202)
    (e1 e2 e3 e4 : PollResponse)
    (he1 : respOk e1.status = false) (he2 : respOk e2.status = false)
    (he3 : respOk e3.status = false) (he4 : respOk e4.status = false)
    (rest : List PollResponse) (b : Json) (ra : Option RetryAfterValue) (now : Int) :
    (poll d (a1 ++ (e1 :: (a2 ++ (e2 :: (a3 ++ (e3 :: (a4 ++ (e4 :: rest))))))))).1 =
      .httpError e4.status ∧
    (poll d (a1 ++ (e1 :: (a2 ++ (e2 :: (a3 ++ (e3 :: (a4 ++
        (({ status := 200, retryAfter := ra, body := b, now := now } : PollResponse) ::
          rest))))))))).1 = .manifest b ∧
    poll d [e1, e2, e3,
            { status := 200, retryAfter := ra, body := b, now := now }] =
      (.manifest b, [d, d, d]) := by
  refine ⟨?_, ?_, ?_⟩
  · show (pollLoop d _ 0 d).1 = _
    rw [pollLoop_block_then_error d a1 e1 _ 0 d h1 he1 (by omega),
        pollLoop_block_then_error d a2 e2 _ 1 d h2 he2 (by omega),
        pollLoop_block_then_error d a3 e3 _ 2 d h3 he3 (by omega)]
    obtain ⟨s2, hs2⟩ := pollLoop_202_block d a4 (e4 :: rest) 3 d h4
    rw [hs2, pollLoop_error_escalate d e4 rest 3 s2 he4 (by omega)]
  · show (pollLoop d _ 0 d).1 = _
    rw [pollLoop_block_then_error d a1 e1 _ 0 d h1 he1 (by omega),
        pollLoop_block_then_error d a2 e2 _ 1 d h2 he2 (by omega),
        pollLoop_block_then_error d a3 e3 _ 2 d h3 he3 (by omega)]
    obtain ⟨s2, hs2⟩ := pollLoop_202_block d a4
      (({ status := 200, retryAfter := ra, body := b, now := now } : PollResponse) :: rest)
      3 d h4
    rw [hs2, pollLoop_200 d { status := 200, retryAfter := ra, body := b, now := now }
          rest 3 s2 rfl]
  · show pollLoop d _ 0 d = _
    rw [pollLoop_error_absorb d e1 _ 0 d he1 (by omega),
        pollLoop_error_absorb d e2 _ 1 d he2 (by omega),
        pollLoop_error_absorb d e3 _ 2 d he3 (by omega),
        pollLoop_200 d { status := 200, retryAfter := ra, body := b, now := now }
          [] 3 d rfl]

/-- C1 (witness): the amended theorem applied to a concrete stream whose four
500 responses are isolated by 202 responses. -/
theorem poll_error_budget_cumulative_witness :
    respOk 500 = false ∧
    (poll 7 ([{ status := 202, retryAfter := none, body := .null, now := 0 }] ++
        (({ status := 500, retryAfter := none, body := .null, now := 0 } : PollResponse) ::
          ([] ++ (({ status := 500, retryAfter := none, body := .null, now := 0 } : PollResponse) ::
            ([] ++ (({ status := 500, retryAfter := none, body := .null, now := 0 } : PollResponse) ::
              ([{ status := 202, retryAfter := none, body := .null, now := 0 }] ++
                (({ status := 500, retryAfter := none, body := .null, now := 0 } : PollResponse) ::
                  []))))))))).1 = .httpError 500 :=
  ⟨rfl,
   (poll_error_budget_cumulative 7
      [{ status := 202, retryAfter := none, body := .null, now := 0 }] [] []
      [{ status := 202, retryAfter := none, body := .null, now := 0 }]
      (by intro r hr; rw [List.mem_singleton] at hr; rw [hr])
      (by intro r hr; cases hr) (by intro r hr; cases hr)
      (by intro r hr; rw [List.mem_singleton] at hr; rw [hr])
      { status := 500, retryAfter := none, body := .null, now := 0 }
      { status := 500, retryAfter := none, body := .null, now := 0 }
      { status := 500, retryAfter := none, body := .null, now := 0 }
      { status := 500, retryAfter := none, body := .null, now := 0 }
      rfl rfl rfl rfl [] .null none 0).1⟩

/-- C2 (code evaluated at the failing input): for a `Retry-After` HTTP-date
10 seconds in the past (`date = now - 10`), the wait interval computed on
src line 461 is `timedelta.seconds = 86390`, not `max 0 (date - now) = 0`;
the subsequent `min` with the default then makes the loop sleep the full
default (120), where the claim demands a 0-second wait. -/
theorem retry_after_past_date_not_clamped :
    retryAfterSeconds (.httpDate 100) 110 = 86390 ∧
    max 0 ((100 : Int) - 110) = 0 ∧
    (poll 120 [{ status := 202, retryAfter := some (.httpDate 100), body := .null,
                 now := 110 }]).2 = [120] :=
  ⟨rfl, rfl, rfl⟩

/-- C3: a 200 on the first poll request returns the decoded body at once and
the sleep list is empty — no sleep is ever invoked. -/
theorem poll_first_200_returns_manifest (d : Nat) (ra : Option RetryAfterValue)
    (b : Json) (now : Int) (rest : List PollResponse) :
    poll d ({ status := 200, retryAfter := ra, body := b, now := now } :: rest) =
      (.manifest b, []) := rfl

/-- A run of numeric-`Retry-After` 202 responses closed by a 200: each
iteration sleeps the clamp of its value by the default, regardless of the
incoming counter and interval. -/
theorem pollLoop_numeric_run (d : Nat) (vals : List Nat) (b : Json) :
    ∀ (ec s : Nat),
      pollLoop d
        ((vals.map (fun n =>
            ({ status := 202, retryAfter := some (.numeric n), body := .null,
               now := 0 } : PollResponse))) ++
          [{ status := 200, retryAfter := none, body := b, now := 0 }]) ec s =
      (.manifest b, vals.map (fun n => min n d)) := by
  induction vals with
  | nil => intro ec s; rfl
  | cons n vals ih =>
    intro ec s
    rw [List.map_cons, List.cons_append,
        pollLoop_retry d
          { status := 202, retryAfter := some (.numeric n), body := .null, now := 0 }
          _ ec s (.numeric n) rfl (by intro h; cases h) rfl,
        ih ec _, List.map_cons]
    rfl

/-- C4: every duration the poll loop actually sleeps is at most the default
polling interval, and a run of 202 responses with numeric `Retry-After`
values followed by a 200 sleeps exactly `min value default` for each, in
order. -/
theorem poll_sleeps_clamped (d : Nat) :
    (∀ (rs : List PollResponse) (ec s : Nat), ∀ x ∈ (pollLoop d rs ec s).2, x ≤ d) ∧
    (∀ (vals : List Nat) (b : Json),
      poll d ((vals.map (fun n =>
          ({ status := 202, retryAfter := some (.numeric n), body := .null,
             now := 0 } : PollResponse))) ++
          [{ status := 200, retryAfter := none, body := b, now := 0 }]) =
        (.manifest b, vals.map (fun n => min n d))) := by
  constructor
  · intro rs
    induction rs with
    | nil => intro ec s x hx; simp [pollLoop] at hx
    | cons r rest ih =>
      intro ec s x hx
      by_cases hok : respOk r.status = false
      · by_cases hec : ec < 3
        · rw [pollLoop_error_absorb d r rest ec s hok hec] at hx
          rcases List.mem_cons.mp hx with h | h
          · exact h ▸ le_refl d
          · exact ih (ec + 1) d x h
        · rw [pollLoop_error_escalate d r rest ec s hok hec] at hx
          cases hx
      · have hok' : respOk r.status = true := by
          cases hb : respOk r.status
          · exact absurd hb hok
          · rfl
        by_cases h200 : r.status = 200
        · rw [pollLoop_200 d r rest ec s h200] at hx
          cases hx
        · cases hra : r.retryAfter with
          | some ra =>
            rw [pollLoop_retry d r rest ec s ra hok' h200 hra] at hx
            rcases List.mem_cons.mp hx with h | h
            · exact h ▸ min_le_right _ _
            · exact ih ec _ x h
          | none =>
            by_cases h202 : r.status = 202
            · rw [pollLoop_202 d r rest ec s hra h202] at hx
              rcases List.mem_cons.mp hx with h | h
              · exact h ▸ min_le_right _ _
              · exact ih ec _ x h
            · rw [pollLoop_invalid d r rest ec s hok' h200 hra h202] at hx
              cases hx
  · intro vals b
    exact pollLoop_numeric_run d vals b 0 d

/-- C4 (witness): concrete run with values 3 and 200 against default 5:
the loop sleeps 3 then 5; and the sleep recorded for a concrete stream is
at most the default. -/
theorem poll_sleeps_clamped_witness :
    poll 5 [{ status := 202, retryAfter := some (.numeric 3), body := .null, now := 0 },
            { status := 202, retryAfter := some (.numeric 200), body := .null, now := 0 },
            { status := 200, retryAfter := none, body := .null, now := 0 }] =
      (.manifest .null, [3, 5]) ∧
    (3 : Nat) ≤ 5 :=
  ⟨(poll_sleeps_clamped 5).2 [3, 200] .null,
   (poll_sleeps_clamped 5).1
      [{ status := 202, retryAfter := some (.numeric 3), body := .null, now := 0 },
       { status := 200, retryAfter := none, body := .null, now := 0 }] 0 5 3
      (by decide)⟩

/-- C5 (counterexample): the claim says any non-202 kick-off status has its
decoded JSON body returned directly to the caller, but `__async_operation`
calls `raise_for_status()` on every non-ok response, so a 404 kick-off
raises an HTTP error and no body is ever returned. -/
theorem bulk_kickoff_404_raises :
    bulkKickoff { status := 404, contentLocation := none, body := .null } =
      .httpError 404 ∧
    bulkKickoff { status := 404, contentLocation := none, body := .null } ≠
      .direct .null := by
  constructor
  · rfl
  · intro h
    exact KickoffOutcome.noConfusion h

/-- C5 (amended): a kick-off response splits three ways, not two: a
non-ok status raises the HTTP error inside `__async_operation`; an ok 202
extracts `Content-Location` as the job handle and starts polling; an ok
non-202 status has its decoded JSON body returned directly without polling. -/
theorem bulk_kickoff_cases (r : KickoffResponse) :
    (respOk r.status = false → bulkKickoff r = .httpError r.status) ∧
    (respOk r.status = true → r.status = 202 → ∀ loc, r.contentLocation = some loc →
      bulkKickoff r = .startPoll loc) ∧
    (respOk r.status = true → r.status ≠ 202 → bulkKickoff r = .direct r.body) := by
  refine ⟨fun h1 => ?_, fun h1 h2 loc h3 => ?_, fun h1 h2 => ?_⟩
  · simp [bulkKickoff, h1]
  · simp [bulkKickoff, respOk, h1, h2, h3]
  · simp [bulkKickoff, h1, h2]

/-- C5 (witness): a 202 kick-off with a concrete `Content-Location` starts
polling that handle. -/
theorem bulk_kickoff_cases_witness :
    respOk 202 = true ∧
    bulkKickoff { status := 202, contentLocation := some "jobs/1", body := .null } =
      .startPoll "jobs/1" :=
  ⟨rfl,
   (bulk_kickoff_cases { status := 202, contentLocation := some "jobs/1", body := .null }).2.1
      rfl rfl "jobs/1" rfl⟩

/-- C6 (code evaluated at the failing input): `validate` with a non-empty
profile never builds the intended Parameters body — the source wraps the
profile dict in a set literal, which raises TypeError because a dict is
unhashable. The request is never sent. -/
theorem validate_profile_type_error (resource : Json) (mode : Option String)
    (p : String) (ts : String) (hp : 0 < p.length) :
    validate_body resource mode (some p) ts =
      .error "TypeError: unhashable type (set literal around the profile dict)" := by
  cases mode with
  | none => simp [validate_body, hp]
  | some m => by_cases hm : 0 < m.length <;> simp [validate_body, hp, hm]

/-- C6 (witness): a concrete non-empty profile makes `validate` raise. -/
theorem validate_profile_type_error_witness :
    0 < "http://example.org/p".length ∧
    validate_body .null (some "create") (some "http://example.org/p") "1" =
      .error "TypeError: unhashable type (set literal around the profile dict)" :=
  ⟨by decide,
   validate_profile_type_error .null (some "create") "http://example.org/p" "1" (by decide)⟩

/-- C7: `search_next` on a Bundle with a link list follows the unique `next`
link and returns the fetched decoded JSON when exactly one such link exists,
and returns none when there are zero `next` links or more than one. -/
theorem search_next_follows_unique (fetch : String → Json) (l : List BundleLink) :
    (∀ u, (l.filter (fun item => item.relation = "next")).map (fun item => item.url) = [u] →
      search_next fetch { resourceType := some "Bundle", link := some l } =
        some (fetch u)) ∧
    ((l.filter (fun item => item.relation = "next")).map (fun item => item.url) = [] ∨
        1 < ((l.filter (fun item => item.relation = "next")).map (fun item => item.url)).length →
      search_next fetch { resourceType := some "Bundle", link := some l } = none) := by
  constructor
  · intro u h
    simp only [search_next]
    rw [h]
    simp
  · intro h
    simp only [search_next]
    rcases hl : (l.filter (fun item => item.relation = "next")).map (fun item => item.url) with
      _ | ⟨a, _ | ⟨b, t⟩⟩
    · rw [hl]
      simp
    · rw [hl] at h
      simp at h
    · rw [hl]
      simp

/-- C7 (witness): the theorem applied to a Bundle with one `self` link and
one `next` link. -/
theorem search_next_follows_unique_witness :
    ((([{ relation := "self", url := "s" }, { relation := "next", url := "n1" }] :
        List BundleLink).filter (fun item => item.relation = "next")).map
      (fun item => item.url) = ["n1"]) ∧
    search_next (fun u => .str u)
        { resourceType := some "Bundle",
          link := some [{ relation := "self", url := "s" },
                        { relation := "next", url := "n1" }] } =
      some (.str "n1") :=
  ⟨by decide,
   (search_next_follows_unique (fun u => .str u)
      [{ relation := "self", url := "s" }, { relation := "next", url := "n1" }]).1
      "n1" (by decide)⟩

/-- C8: `mutate_group` — and therefore `member_add` (`$member-add`) and
`member_remove` (`$member-remove`) — posts a Parameters body whose parameter
list is exactly one entry named `patientReference`, whose
`valueReference.reference` is the given patient id and whose
`valueReference.type` is `Patient`. -/
theorem mutate_group_sole_patient_reference (st : ClientState) (now : Int)
    (group_id patient_id ts : String) :
    (member_add_request st now group_id patient_id ts).body =
      some (mutate_group_body patient_id ts) ∧
    (member_remove_request st now group_id patient_id ts).body =
      some (mutate_group_body patient_id ts) ∧
    (mutate_group_body patient_id ts).lookup "parameter" =
      some (.arr [.obj [("name", .str "patientReference"),
                        ("valueReference", .obj [("reference", .str patient_id),
                                                 ("type", .str "Patient")])]]) ∧
    (∀ vr, Json.lookup (.obj [("name", .str "patientReference"),
             ("valueReference", .obj [("reference", .str patient_id),
                                      ("type", .str "Patient")])]) "valueReference" =
        some vr →
      vr.lookup "reference" = some (.str patient_id) ∧
      vr.lookup "type" = some (.str "Patient")) := by
  refine ⟨rfl, rfl, rfl, fun vr hvr => ?_⟩
  have : vr = Json.obj [("reference", .str patient_id), ("type", .str "Patient")] := by
    cases hvr
    rfl
  rw [this]
  exact ⟨rfl, rfl⟩

/-- C8 (witness): the theorem at a concrete group, patient and timestamp,
including the value-reference conjunct at its concrete object. -/
theorem mutate_group_sole_patient_reference_witness :
    (member_add_request
        { base_url := "http://h", token := none, token_expires_at := none,
          auth_type := none, extra_headers := none } 0 "g1" "Patient/p1" "42").body =
      some (mutate_group_body "Patient/p1" "42") ∧
    (Json.lookup (.obj [("reference", .str "Patient/p1"), ("type", .str "Patient")])
        "reference" = some (.str "Patient/p1") ∧
     Json.lookup (.obj [("reference", .str "Patient/p1"), ("type", .str "Patient")])
        "type" = some (.str "Patient")) :=
  ⟨(mutate_group_sole_patient_reference
      { base_url := "http://h", token := none, token_expires_at := none,
        auth_type := none, extra_headers := none } 0 "g1" "Patient/p1" "42").1,
   (mutate_group_sole_patient_reference
      { base_url := "http://h", token := none, token_expires_at := none,
        auth_type := none, extra_headers := none } 0 "g1" "Patient/p1" "42").2.2.2
      (.obj [("reference", .str "Patient/p1"), ("type", .str "Patient")]) rfl⟩

/-- C9: `update` is a pure no-op — it returns `None`, issues no HTTP request
and leaves the client state untouched, while `create` (for contrast) does
issue a POST carrying the resource. -/
theorem update_is_noop (st : ClientState) (resource_type : String) (resource : Json)
    (now : Int) :
    update_call st resource_type resource = (st, none, []) ∧
    (create_request st now resource_type resource).body = some resource :=
  ⟨rfl, rfl⟩

/-- C10: `get_metadata` and `get_smart_configuration` pass no headers at all
to the session — no FHIR `Accept`/`Content-Type`, no `Authorization`, none of
the configured extra headers, and the token-refresh check never runs — while
every resource call built on `__operation_on_resource` sends the full
`__headers` dict and runs the refresh check. -/
theorem metadata_bypasses_headers (st : ClientState) (now : Int) :
    (get_metadata_request st).headers = none ∧
    (get_smart_configuration_request st).headers = none ∧
    (∀ resource_type resource_id operation body,
      (operation_on_resource_request st now resource_type resource_id operation
          body).headers =
        some ⟨headersList st, refreshAttempted st now⟩) ∧
    (get_metadata_request st).url = st.base_url ++ "/metadata" :=
  ⟨rfl, rfl, fun _ _ _ _ => rfl, rfl⟩

end FhirClientModel
